import Mathlib

/-
Verification of the smoker plugin manager (smoker/server/pluginmanager.py).

The Python module is shallowly embedded below.  Python dicts are modelled as
association lists over string keys (`Dict`), Python values occurring in plugin
configurations as the inductive `Value`, Python `==` as `pyEq`, and exceptions
as `Except` results.  Stateful methods thread the manager state explicitly; a
raised exception carries the state at raise time, so "state unchanged on
failure" is a provable statement.  Object references into the registry are
represented by registry keys.  The `Plugin` class itself and the semaphore
acquire/release discipline live outside the embedded module and are modelled
from the specification where claims need them.
-/

set_option autoImplicit false

namespace Smoker

/-- Association-list model of a Python dict with string keys. -/
abbrev Dict (α : Type) : Type := List (String × α)

/-- Lookup of a key, mirrors Python `d[k]` / `d.get(k)` (first binding wins). -/
def dictGet? {α : Type} : Dict α → String → Option α
  | [], _ => none
  | p :: rest, k => if p.1 = k then some p.2 else dictGet? rest k

/-- Mirrors Python `d.has_key(k)`. -/
def dictHasKey {α : Type} (d : Dict α) (k : String) : Bool :=
  (dictGet? d k).isSome

/-- Mirrors Python item assignment `d[k] = v`: replace the binding in place if
the key is present, otherwise add a new binding. -/
def dictSet {α : Type} : Dict α → String → α → Dict α
  | [], k, v => [(k, v)]
  | p :: rest, k, v => if p.1 = k then (k, v) :: rest else p :: dictSet rest k v

/-- Mirrors Python `dict(a, **b)`: every key of `a` with its value overridden
by `b` where present, followed by the keys of `b` that are new. -/
def dictMerge {α : Type} (a b : Dict α) : Dict α :=
  a.map (fun p => (p.1, (dictGet? b p.1).getD p.2)) ++
    b.filter (fun p => !dictHasKey a p.1)

/-- First-defined choice between two optional values, used to state the
per-key precedence of the configuration merge. -/
def firstSome {α : Type} : Option α → Option α → Option α
  | some v, _ => some v
  | none, o => o

/-- Python values that occur in plugin configurations: ints, booleans, strings
and nested dicts (an action's parameter mapping substituted into options). -/
inductive Value : Type where
  | vint : Int → Value
  | vbool : Bool → Value
  | vstr : String → Value
  | vdict : List (String × Value) → Value

/-- Python `==` on `Value`s: numeric cross-equality between booleans and ints
(`0 == False`, `1 == True`), and dict equality by key set and per-key values. -/
def pyEq : Value → Value → Bool
  | .vint a, .vint b => a == b
  | .vint a, .vbool b => a == (if b then (1 : Int) else 0)
  | .vbool a, .vint b => (if a then (1 : Int) else 0) == b
  | .vbool a, .vbool b => a == b
  | .vstr a, .vstr b => a == b
  | .vdict a, .vdict b => a.length == b.length && pyEqEntries a b
  | _, _ => false
where
  /-- Every binding of the first dict is matched by an equal value in the second. -/
  pyEqEntries : Dict Value → Dict Value → Bool
  | [], _ => true
  | (k, v) :: rest, b =>
    (match dictGet? b k with
     | some w => pyEq v w
     | none => false) && pyEqEntries rest b

/-- Exceptions of the smoker server visible in the plugin manager
(`smoker.server.exceptions`), plus the Python built-in errors the module can
raise (`AttributeError` from iterating a `None` config, `IndexError` from an
out-of-range ledger index). -/
inductive SmokerError : Type where
  | TemplateNotFound
  | NoTemplatesConfigured
  | ActionNotFound
  | NoActionsConfigured
  | BasePluginTemplateNotFound
  | NoRunningPlugins
  | NoSuchPlugin
  | NoPluginsFound
  | AttributeError
  | IndexError
deriving DecidableEq

/-- Modelled from the spec: the `Plugin` collaborator class
(`smoker.server.plugins`, not part of the embedded source) is constructible
from a name and a merged parameter mapping, and exposes externally writable
`force` / `forced_result` fields, liveness, and a termination request flag. -/
structure Plugin : Type where
  name : String
  params : Dict Value
  force : Bool
  forced_result : Option Value
  alive : Bool
  terminated : Bool

/-- Modelled from the spec: a freshly constructed `Plugin` is not forced, has
no forced result, is not running and has not been asked to terminate. -/
def mkPlugin (name : String) (params : Dict Value) : Plugin :=
  { name := name, params := params, force := false, forced_result := none,
    alive := false, terminated := false }

/-- A forced-run ledger entry: `{'plugins': plugins_list}`.  The Python list
holds object references into the registry; each is represented here by its
registry key together with the plugin value at collection time. -/
structure ProcessRec : Type where
  plugins : List (String × Plugin)

/-- State of the `PluginManager` class: the three configuration mappings, the
plugin registry `plugins`, the process ledger `processes` (index 0 holds the
`None` sentinel), and the `stopping` flag. -/
structure PluginManager : Type where
  conf_plugins : Option (Dict (Dict Value))
  conf_actions : Option (Dict (Dict Value))
  conf_templates : Option (Dict (Dict Value))
  plugins : Dict Plugin
  processes : List (Option ProcessRec)
  stopping : Bool

namespace PluginManager

/-- Lookup of a template under an arbitrary Python key: a non-dict templates
configuration raises `NoTemplatesConfigured`; a key that is not a string (or a
string absent from the mapping) raises `TemplateNotFound`. -/
def get_template_v (m : PluginManager) (name : Value) :
    Except SmokerError (Dict Value) :=
  match m.conf_templates with
  | none => .error .NoTemplatesConfigured
  | some ts =>
    match name with
    | .vstr s =>
      match dictGet? ts s with
      | some params => .ok params
      | none => .error .TemplateNotFound
    | _ => .error .TemplateNotFound

/-- `PluginManager.get_template`: return a template's parameter mapping. -/
def get_template (m : PluginManager) (name : String) :
    Except SmokerError (Dict Value) :=
  get_template_v m (.vstr name)

/-- Lookup of an action under an arbitrary Python key, mirroring
`get_template_v`. -/
def get_action_v (m : PluginManager) (name : Value) :
    Except SmokerError (Dict Value) :=
  match m.conf_actions with
  | none => .error .NoActionsConfigured
  | some as_ =>
    match name with
    | .vstr s =>
      match dictGet? as_ s with
      | some params => .ok params
      | none => .error .ActionNotFound
    | _ => .error .ActionNotFound

/-- `PluginManager.get_action`: return an action's parameter mapping. -/
def get_action (m : PluginManager) (name : String) :
    Except SmokerError (Dict Value) :=
  get_action_v m (.vstr name)

/-- The `BasePlugin` template as seen by `load_plugin`: the bare
`try/except` yields the empty mapping when the lookup raises. -/
def baseTemplate (m : PluginManager) : Dict Value :=
  match get_template m "BasePlugin" with
  | .ok t => t
  | .error _ => []

/-- The `if options.has_key('Template')` step of `load_plugin`: when a
template is named, its parameters override the inherited ones
(`dict(template, **template_custom)`), propagating lookup failures. -/
def templatePhase (m : PluginManager) (template : Dict Value)
    (options : Dict Value) : Except SmokerError (Dict Value) :=
  match dictGet? options "Template" with
  | some tname =>
    match get_template_v m tname with
    | .ok tc => .ok (dictMerge template tc)
    | .error e => .error e
  | none => .ok template

/-- The `if options.has_key('Action')` step of `load_plugin`: a named action
is replaced in place by its resolved parameter mapping, propagating lookup
failures. -/
def actionPhase (m : PluginManager) (options : Dict Value) :
    Except SmokerError (Dict Value) :=
  match dictGet? options "Action" with
  | some aname =>
    match get_action_v m aname with
    | .ok ap => .ok (dictSet options "Action" (Value.vdict ap))
    | .error e => .error e
  | none => .ok options

/-- `PluginManager.load_plugin`: resolve a plugin's parameters (BasePlugin
defaults, overridden by the named template when `options` has a `Template`
key, overridden by `options` with the `Action` reference substituted first,
`dict(template, **options)`) and construct the `Plugin` object. -/
def load_plugin (m : PluginManager) (plugin : String) (options : Dict Value) :
    Except SmokerError Plugin :=
  match templatePhase m (baseTemplate m) options with
  | .error e => .error e
  | .ok template =>
    match actionPhase m options with
    | .error e => .error e
    | .ok options' => .ok (mkPlugin plugin (dictMerge template options'))

/-- Whether a configured entry is explicitly disabled:
`options.has_key('Enabled') and options['Enabled'] == False`. -/
def disabledEntry (options : Dict Value) : Bool :=
  match dictGet? options "Enabled" with
  | some v => pyEq v (.vbool false)
  | none => false

/-- The per-entry loop of `load_plugins`: skip disabled entries, register each
successfully constructed plugin under its name, and skip (log and continue)
every entry whose construction raises. -/
def load_entries (m : PluginManager) :
    List (String × Dict Value) → Dict Plugin → Dict Plugin
  | [], acc => acc
  | (plugin, options) :: rest, acc =>
    if disabledEntry options then load_entries m rest acc
    else
      match load_plugin m plugin options with
      | .ok p => load_entries m rest (dictSet acc plugin p)
      | .error _ => load_entries m rest acc

/-- `PluginManager.load_plugins`: require the `BasePlugin` template (else the
fatal `BasePluginTemplateNotFound`), run the per-entry loop over the
configured plugins (iterating a `None` configuration raises
`AttributeError`), and raise `NoRunningPlugins` if the registry ends empty. -/
def load_plugins (m : PluginManager) :
    Except (SmokerError × PluginManager) PluginManager :=
  match get_template m "BasePlugin" with
  | .error .TemplateNotFound => .error (.BasePluginTemplateNotFound, m)
  | .error .NoTemplatesConfigured => .error (.BasePluginTemplateNotFound, m)
  | .error e => .error (e, m)
  | .ok _ =>
    match m.conf_plugins with
    | none => .error (.AttributeError, m)
    | some entries =>
      let m' := { m with plugins := load_entries m entries m.plugins }
      if m'.plugins.length = 0 then .error (.NoRunningPlugins, m')
      else .ok m'

/-- `PluginManager.__init__`: store the three configuration mappings, clear
`stopping`, and run `load_plugins`.  The registry and the ledger are class
attributes that the constructor never reassigns, so they are taken over from
the shared class state (`sharedPlugins`, `sharedProcesses`); a fresh Python
process starts from the class body's `plugins = ` empty dict and
`processes = [None]`. -/
def init (sharedPlugins : Dict Plugin) (sharedProcesses : List (Option ProcessRec))
    (plugins actions templates : Option (Dict (Dict Value))) :
    Except (SmokerError × PluginManager) PluginManager :=
  load_plugins
    { conf_plugins := plugins, conf_actions := actions, conf_templates := templates,
      plugins := sharedPlugins, processes := sharedProcesses, stopping := false }

/-- The filtering loop body of `get_plugins`:
`plugin.params.has_key(key) and plugin.params[key] == value`. -/
def matchesFilter (key : String) (value : Value) (p : Plugin) : Bool :=
  match dictGet? p.params key with
  | some v => pyEq v value
  | none => false

/-- The registry entries whose plugin's resolved parameters contain `key` with
a value Python-equal to `value` (the filtering loop of `get_plugins`, keeping
the registry key of each matching object). -/
def filterEntries (plugins : Dict Plugin) (key : String) (value : Value) :
    List (String × Plugin) :=
  plugins.filter (fun p => matchesFilter key value p.2)

/-- `PluginManager.get_plugins`: with a truthy (non-empty) filter dict, the
list of plugins whose parameters match the filter's first key/value pair;
otherwise the full registry mapping. -/
def get_plugins (m : PluginManager) (filter : Option (Dict Value)) :
    Sum (List Plugin) (Dict Plugin) :=
  match filter with
  | some ((key, value) :: _) => .inl ((filterEntries m.plugins key value).map (·.2))
  | _ => .inr m.plugins

/-- `PluginManager.get_plugin`: registry lookup, `NoSuchPlugin` if absent. -/
def get_plugin (m : PluginManager) (name : String) : Except SmokerError Plugin :=
  match dictGet? m.plugins name with
  | some p => .ok p
  | none => .error .NoSuchPlugin

/-- The name-resolution loop of `add_process`: look every requested name up in
the registry, propagating `NoSuchPlugin` from the first unknown one. -/
def resolveNames (m : PluginManager) :
    List String → Except SmokerError (List (String × Plugin))
  | [] => .ok []
  | n :: rest =>
    match get_plugin m n with
    | .error e => .error e
    | .ok p =>
      match resolveNames m rest with
      | .error e => .error e
      | .ok l => .ok ((n, p) :: l)

/-- The per-plugin mutation of `add_process`: `plugin.force = True` and
`plugin.forced_result = None`, all other fields untouched. -/
def forcePlugin (p : Plugin) : Plugin :=
  { p with force := true, forced_result := none }

/-- Apply `forcePlugin` to the registry entry bound to key `k` (the mutation
`add_process` performs through each collected object reference). -/
def forceSet (d : Dict Plugin) (k : String) : Dict Plugin :=
  d.map (fun p => if p.1 = k then (p.1, forcePlugin p.2) else p)

/-- The `if plugins:` part of `add_process`: a `None` or empty (falsy) names
argument contributes nothing, otherwise every name is resolved through
`get_plugin`. -/
def namesPhase (m : PluginManager) (plugins : Option (List String)) :
    Except SmokerError (List (String × Plugin)) :=
  match plugins with
  | some names => if names.isEmpty then .ok [] else resolveNames m names
  | none => .ok []

/-- The `if filter:` part of `add_process`: a `None` or empty (falsy) filter
contributes nothing, otherwise the plugins matching the filter's first
key/value pair are added. -/
def filterPhase (m : PluginManager) (filter : Option (Dict Value)) :
    List (String × Plugin) :=
  match filter with
  | some ((key, value) :: _) => filterEntries m.plugins key value
  | _ => []

/-- `PluginManager.add_process`: resolve the target set (explicit names, then
filter matches), raise `NoPluginsFound` if it is empty, append the ledger
entry, flag every resolved plugin for a forced run, and return the new
entry's index `len(processes) - 1`. -/
def add_process (m : PluginManager) (plugins : Option (List String))
    (filter : Option (Dict Value)) :
    Except (SmokerError × PluginManager) (Nat × PluginManager) :=
  match namesPhase m plugins with
  | .error e => .error (e, m)
  | .ok fromNames =>
    let plugins_list := fromNames ++ filterPhase m filter
    if plugins_list.length = 0 then .error (.NoPluginsFound, m)
    else
      let processes' := m.processes ++ [some ⟨plugins_list⟩]
      let id := processes'.length - 1
      let plugins' := plugins_list.foldl (fun acc q => forceSet acc q.1) m.plugins
      .ok (id, { m with processes := processes', plugins := plugins' })

/-- `PluginManager.get_process`: positional ledger lookup; an index beyond the
ledger raises `IndexError`, index 0 returns the `None` sentinel. -/
def get_process (m : PluginManager) (id : Nat) :
    Except SmokerError (Option ProcessRec) :=
  match m.processes[id]? with
  | some r => .ok r
  | none => .error .IndexError

/-- Interval of each `time.sleep(0.5)` call in the blocking shutdown loop. -/
def sleepInterval : ℚ := 1 / 2

/-- The names of the still-alive plugins observed at one poll, given the
external liveness oracle for that poll (`plugin.is_alive()` per name). -/
def pluginsLeft (plugins : Dict Plugin) (alive : String → Bool) : List String :=
  (plugins.filter (fun p => alive p.1)).map (·.1)

/-- Outcome of `stop`: the manager state, the number of sleeps taken, the
polls at which a progress line was logged, and the total time slept. -/
structure StopResult : Type where
  manager : PluginManager
  sleeps : Nat
  logPolls : List Nat
  slept : ℚ

/-- The `while plugins_left` loop of `stop`: at poll `k` recompute the alive
names from the liveness oracle; exit when none are left, otherwise log only
when the alive count differs from the previous count, sleep, and continue.
`fuel` bounds the number of iterations (the Python loop may run forever). -/
def stopLoop (plugins : Dict Plugin) (alive : Nat → String → Bool) :
    Nat → Nat → Nat → List Nat → ℚ → Option (Nat × List Nat × ℚ)
  | 0, _, _, _, _ => none
  | fuel + 1, cnt, k, logs, slept =>
    let left := pluginsLeft plugins (alive k)
    if left.length = 0 then some (k, logs.reverse, slept)
    else
      let logs' := if left.length ≠ cnt then k :: logs else logs
      stopLoop plugins alive fuel left.length (k + 1) logs' (slept + sleepInterval)

/-- The comparison count held in `plugins_left_cnt` when poll `k` happens:
the total number of registered plugins before the first poll, afterwards the
alive count of the previous poll. -/
def prevCnt (plugins : Dict Plugin) (alive : Nat → String → Bool) (k : Nat) : Nat :=
  if k = 0 then plugins.length else (pluginsLeft plugins (alive (k - 1))).length

/-- The effect of `plugin.terminate()` on the modelled collaborator state:
mark the plugin as asked to terminate. -/
def terminatePlugin (p : Plugin) : Plugin := { p with terminated := true }

/-- The state change of `stop` before any waiting: set the `stopping` flag
and request termination of every registered plugin. -/
def stopRequest (m : PluginManager) : PluginManager :=
  { m with stopping := true,
           plugins := m.plugins.map (fun p => (p.1, terminatePlugin p.2)) }

/-- `PluginManager.stop`: request termination of every plugin; when
`blocking`, additionally poll liveness until no plugin is alive.  `alive` is
the external liveness oracle per poll; `none` means the loop was still
running after `fuel` polls. -/
def stop (m : PluginManager) (blocking : Bool) (alive : Nat → String → Bool)
    (fuel : Nat) : Option StopResult :=
  let m' := stopRequest m
  if blocking then
    match stopLoop m'.plugins alive fuel m'.plugins.length 0 [] 0 with
    | some (k, logs, slept) => some ⟨m', k, logs, slept⟩
    | none => none
  else some ⟨m', 0, [], 0⟩

end PluginManager

/-- The module-level semaphore capacity: number of online logical processors
plus 2 (`os.sysconf('SC_NPROCESSORS_ONLN') + 2`). -/
def semaphore_count (nprocs : Nat) : Nat := nprocs + 2

/-- Modelled from the spec: the probe execution discipline of the `Plugin`
run loop (`smoker.server.plugins`, not part of the embedded source).  Every
plugin shares the one module-level counting semaphore; a probe acquires one
unit immediately before running — possible only while fewer than `cap` units
are held — and releases it immediately after.  `GateTrace cap n` holds when a
sequence of such acquire/release events can leave `n` probes in progress. -/
inductive GateTrace (cap : Nat) : Nat → Prop where
  | nil : GateTrace cap 0
  | acquire {n : Nat} : GateTrace cap n → n < cap → GateTrace cap (n + 1)
  | release {n : Nat} : GateTrace cap (n + 1) → GateTrace cap n

section ConcreteInstances

/-- Templates of the specification's merge example: `BasePlugin` with
`a=1, b=2` and `T` with `b=3, c=4`. -/
def exTemplates : Dict (Dict Value) :=
  [("BasePlugin", [("a", .vint 1), ("b", .vint 2)]),
   ("T", [("b", .vint 3), ("c", .vint 4)])]

/-- Options of the specification's merge example: `c=5, d=6` with
`Template=T`. -/
def exOptions : Dict Value :=
  [("c", .vint 5), ("d", .vint 6), ("Template", .vstr "T")]

/-- A manager configured with the merge example's templates, before loading. -/
def exMergeManager : PluginManager :=
  { conf_plugins := some [("example", exOptions)], conf_actions := none,
    conf_templates := some exTemplates, plugins := [], processes := [none],
    stopping := false }

/-- The parameter mapping the code resolves for the merge example. -/
def exMergedParams : Dict Value :=
  [("a", .vint 1), ("b", .vint 3), ("c", .vint 5), ("d", .vint 6),
   ("Template", .vstr "T")]

/-- A registered plugin whose parameters carry `Category=x`. -/
def exPluginA : Plugin := mkPlugin "pa" [("Category", .vstr "x")]

/-- A registered plugin already flagged for a forced run, with a leftover
forced result, parameters `Category=y`. -/
def exPluginB : Plugin :=
  { mkPlugin "pb" [("Category", .vstr "y")] with
      force := true, forced_result := some (.vint 7) }

/-- A running manager with two registered plugins and a fresh ledger. -/
def exManager : PluginManager :=
  { conf_plugins := some [], conf_actions := none,
    conf_templates := some exTemplates,
    plugins := [("pa", exPluginA), ("pb", exPluginB)], processes := [none],
    stopping := false }

/-- Plugin configuration with one explicitly disabled entry (`off`) and one
enabled entry (`on`). -/
def exDisabledConf : Dict (Dict Value) :=
  [("off", [("Enabled", .vbool false), ("x", .vint 1)]),
   ("on", [("c", .vint 5)])]

/-- A manager about to load `exDisabledConf` into an empty registry. -/
def exDisabledManager : PluginManager :=
  { conf_plugins := some exDisabledConf, conf_actions := none,
    conf_templates := some exTemplates, plugins := [], processes := [none],
    stopping := false }

/-- The manager state `exDisabledManager` loads to: only `on` registered,
with the BasePlugin defaults overridden by its options. -/
def exDisabledResult : PluginManager :=
  { exDisabledManager with
      plugins := [("on", mkPlugin "on"
        [("a", .vint 1), ("b", .vint 2), ("c", .vint 5)])] }

/-- The manager state a second constructor run over `exManager`'s shared
class state reaches when loading the single entry `on`. -/
def exSecondResult : PluginManager :=
  { conf_plugins := some [("on", [("c", .vint 5)])], conf_actions := none,
    conf_templates := some exTemplates,
    plugins := [("pa", exPluginA), ("pb", exPluginB),
                ("on", mkPlugin "on" [("a", .vint 1), ("b", .vint 2), ("c", .vint 5)])],
    processes := [none], stopping := false }

/-- A liveness oracle under which every plugin is alive at poll 0 and dead
from poll 1 on. -/
def exAlive : Nat → String → Bool := fun k _ => k == 0

/-- `exManager` after a forced run of `pa`: ledger entry 1 appended, `pa`
flagged. -/
def exAfterAdd : PluginManager :=
  { exManager with
      processes := [none, some ⟨[("pa", exPluginA)]⟩],
      plugins := [("pa", PluginManager.forcePlugin exPluginA), ("pb", exPluginB)] }

/-- `exManager` after a forced run of the already-forced `pb`: ledger entry 1
appended, `pb` re-flagged with its stale forced result cleared. -/
def exAfterAddB : PluginManager :=
  { exManager with
      processes := [none, some ⟨[("pb", exPluginB)]⟩],
      plugins := [("pa", exPluginA), ("pb", PluginManager.forcePlugin exPluginB)] }

/-- `exSecondResult` after a forced run of `pa`, whose handle continues from
the shared ledger. -/
def exSecondAdd : PluginManager :=
  { exSecondResult with
      processes := [none, some ⟨[("pa", exPluginA)]⟩],
      plugins := [("pa", PluginManager.forcePlugin exPluginA), ("pb", exPluginB),
                  ("on", mkPlugin "on" [("a", .vint 1), ("b", .vint 2), ("c", .vint 5)])] }

end ConcreteInstances

section DictLemmas

variable {α : Type}

theorem firstSome_none_right (o : Option α) : firstSome o none = o := by
  cases o <;> rfl

theorem dictGet?_append (a b : Dict α) (k : String) :
    dictGet? (a ++ b) k = firstSome (dictGet? a k) (dictGet? b k) := by
  induction a with
  | nil => rfl
  | cons p rest ih =>
    by_cases h : p.1 = k <;> simp [dictGet?, h, ih, firstSome]

theorem dictGet?_dictSet (d : Dict α) (k : String) (v : α) (j : String) :
    dictGet? (dictSet d k v) j = if k = j then some v else dictGet? d j := by
  induction d with
  | nil =>
    by_cases h : k = j <;> simp [dictSet, dictGet?, h]
  | cons p rest ih =>
    obtain ⟨pk, pv⟩ := p
    by_cases hpk : pk = k
    · subst hpk
      by_cases hkj : pk = j <;> simp [dictSet, dictGet?, hkj]
    · by_cases hpj : pk = j
      · subst hpj
        have hkj : ¬ k = pk := fun h => hpk h.symm
        simp [dictSet, dictGet?, hpk, hkj]
      · simp [dictSet, dictGet?, hpk, hpj, ih]

theorem dictGet?_override (a b : Dict α) (k : String) :
    dictGet? (a.map (fun p => (p.1, (dictGet? b p.1).getD p.2))) k =
      (dictGet? a k).map (fun v => (dictGet? b k).getD v) := by
  induction a with
  | nil => rfl
  | cons p rest ih =>
    by_cases h : p.1 = k
    · subst h
      simp [dictGet?]
    · simp [dictGet?, h, ih]

theorem dictGet?_filter (q : String × α → Bool) (d : Dict α) (k : String)
    (h : ∀ v : α, q (k, v) = true) :
    dictGet? (d.filter q) k = dictGet? d k := by
  induction d with
  | nil => rfl
  | cons p rest ih =>
    by_cases hpk : p.1 = k
    · have : q p = true := by
        have := h p.2
        rw [show ((k, p.2) : String × α) = p from by rw [← hpk]] at this
        exact this
      simp [List.filter, this, dictGet?, hpk, ih]
    · cases hq : q p <;> simp [List.filter, hq, dictGet?, hpk, ih]

theorem dictGet?_dictMerge (a b : Dict α) (k : String) :
    dictGet? (dictMerge a b) k = firstSome (dictGet? b k) (dictGet? a k) := by
  unfold dictMerge
  rw [dictGet?_append, dictGet?_override]
  cases ha : dictGet? a k with
  | some v =>
    cases hb : dictGet? b k
    · simp [firstSome, Option.getD]
    · simp [firstSome, Option.getD]
  | none =>
    have hfilter :
        dictGet? (b.filter (fun p => !dictHasKey a p.1)) k = dictGet? b k := by
      refine dictGet?_filter _ b k (fun v => ?_)
      simp [dictHasKey, ha]
    rw [hfilter]
    cases hb : dictGet? b k <;> simp [firstSome]

theorem dictHasKey_dictSet (d : Dict α) (k : String) (v : α) (j : String)
    (h : dictHasKey d j = true) : dictHasKey (dictSet d k v) j = true := by
  unfold dictHasKey at *
  rw [dictGet?_dictSet]
  by_cases hkj : k = j
  · simp [hkj]
  · simpa [hkj] using h

theorem dictSet_length_ge (d : Dict α) (k : String) (v : α) :
    d.length ≤ (dictSet d k v).length := by
  induction d with
  | nil => simp [dictSet]
  | cons p rest ih =>
    by_cases h : p.1 = k <;> simp [dictSet, h]
    exact ih

end DictLemmas

section ManagerLemmas

open PluginManager

theorem forcePlugin_idem (p : Plugin) : forcePlugin (forcePlugin p) = forcePlugin p := rfl

theorem dictGet?_forceSet (d : Dict Plugin) (k j : String) :
    dictGet? (forceSet d k) j =
      if k = j then (dictGet? d j).map forcePlugin else dictGet? d j := by
  induction d with
  | nil => by_cases h : k = j <;> simp [forceSet, dictGet?, h]
  | cons p rest ih =>
    obtain ⟨pk, pv⟩ := p
    have hstep : forceSet ((pk, pv) :: rest) k =
        (if pk = k then (pk, forcePlugin pv) else (pk, pv)) :: forceSet rest k := by
      simp only [forceSet, List.map_cons]
    rw [hstep]
    by_cases hpj : pk = j
    · subst hpj
      by_cases hk : pk = k
      · subst hk
        simp [dictGet?]
      · have hkpk : ¬ k = pk := fun h => hk h.symm
        simp [dictGet?, hk, hkpk]
    · by_cases hk : pk = k
      · have hkj : ¬ k = j := fun h => hpj (hk.trans h)
        simp [hk, dictGet?, hpj, hkj, ih]
      · simp [hk, dictGet?, hpj, ih]

theorem dictGet?_foldl_forceSet (l : List (String × Plugin)) (d : Dict Plugin)
    (j : String) :
    dictGet? (l.foldl (fun acc q => forceSet acc q.1) d) j =
      if j ∈ l.map (·.1) then (dictGet? d j).map forcePlugin
      else dictGet? d j := by
  induction l generalizing d with
  | nil => simp
  | cons q rest ih =>
    rw [List.foldl_cons, ih (forceSet d q.1), dictGet?_forceSet]
    by_cases hmem : j ∈ rest.map (·.1)
    · by_cases hq : q.1 = j
      · simp [hmem, hq, Option.map_map, Function.comp, forcePlugin_idem]
        cases dictGet? d j <;> simp [forcePlugin_idem]
      · have : ¬ j = q.1 := fun h => hq h.symm
        simp [hmem, hq]
    · by_cases hq : q.1 = j
      · simp [hmem, hq]
      · have : ¬ j = q.1 := fun h => hq h.symm
        simp [hmem, hq, this]

theorem load_entries_get_of_disabled (m : PluginManager)
    (entries : List (String × Dict Value)) (acc : Dict Plugin) (name : String)
    (h : ∀ options, (name, options) ∈ entries → disabledEntry options = true) :
    dictGet? (load_entries m entries acc) name = dictGet? acc name := by
  induction entries generalizing acc with
  | nil => rfl
  | cons e rest ih =>
    obtain ⟨pl, opts⟩ := e
    by_cases hd : disabledEntry opts = true
    · simp [load_entries, hd]
      exact ih acc (fun o ho => h o (List.mem_cons_of_mem _ ho))
    · have hne : pl ≠ name := by
        intro heq
        subst heq
        exact hd (h opts (List.mem_cons_self _ _))
      have hrest : ∀ options, (name, options) ∈ rest → disabledEntry options = true :=
        fun o ho => h o (List.mem_cons_of_mem _ ho)
      cases hl : load_plugin m pl opts with
      | ok p =>
        simp [load_entries, hd, hl]
        rw [ih (dictSet acc pl p) hrest, dictGet?_dictSet]
        simp [hne]
      | error e =>
        simp [load_entries, hd, hl]
        exact ih acc hrest

theorem dictHasKey_load_entries (m : PluginManager)
    (entries : List (String × Dict Value)) (acc : Dict Plugin) (k : String)
    (h : dictHasKey acc k = true) :
    dictHasKey (load_entries m entries acc) k = true := by
  induction entries generalizing acc with
  | nil => exact h
  | cons e rest ih =>
    obtain ⟨pl, opts⟩ := e
    by_cases hd : disabledEntry opts = true
    · simp only [load_entries, hd, if_pos]
      exact ih acc h
    · cases hl : load_plugin m pl opts with
      | ok p =>
        simp only [load_entries, hd, if_neg, hl, Bool.false_eq_true,
          not_false_eq_true]
        exact ih _ (dictHasKey_dictSet acc pl p k h)
      | error e =>
        simp only [load_entries, hd, if_neg, hl, Bool.false_eq_true,
          not_false_eq_true]
        exact ih acc h

theorem load_entries_length_ge (m : PluginManager)
    (entries : List (String × Dict Value)) (acc : Dict Plugin) :
    acc.length ≤ (load_entries m entries acc).length := by
  induction entries generalizing acc with
  | nil => exact Nat.le_refl _
  | cons e rest ih =>
    obtain ⟨pl, opts⟩ := e
    by_cases hd : disabledEntry opts = true
    · simp only [load_entries, hd, if_pos]
      exact ih acc
    · cases hl : load_plugin m pl opts with
      | ok p =>
        simp only [load_entries, hd, if_neg, hl, Bool.false_eq_true,
          not_false_eq_true]
        exact Nat.le_trans (dictSet_length_ge acc pl p) (ih _)
      | error e =>
        simp only [load_entries, hd, if_neg, hl, Bool.false_eq_true,
          not_false_eq_true]
        exact ih acc

theorem dictGet?_map_value {α β : Type} (g : α → β) (d : Dict α) (k : String) :
    dictGet? (d.map (fun p => (p.1, g p.2))) k = (dictGet? d k).map g := by
  induction d with
  | nil => rfl
  | cons p rest ih =>
    by_cases h : p.1 = k <;> simp [dictGet?, h, ih]

theorem resolveNames_error_of_unknown (m : PluginManager) (names : List String)
    (h : ∃ n ∈ names, dictGet? m.plugins n = none) :
    resolveNames m names = .error .NoSuchPlugin := by
  induction names with
  | nil =>
    rcases h with ⟨n, hn, _⟩
    cases hn
  | cons a rest ih =>
    rcases h with ⟨n, hn, hget⟩
    rcases List.mem_cons.mp hn with heq | hmem
    · subst heq
      unfold resolveNames get_plugin
      rw [hget]
    · unfold resolveNames
      cases hga : get_plugin m a with
      | error e =>
        unfold get_plugin at hga
        cases hget' : dictGet? m.plugins a with
        | some p => rw [hget'] at hga; exact absurd hga (by simp)
        | none => rw [hget'] at hga; simpa using hga.symm
      | ok p =>
        rw [ih ⟨n, hmem, hget⟩]

theorem get_template_error_cases (m : PluginManager) (name : String)
    (e : SmokerError) (h : get_template m name = .error e) :
    e = .TemplateNotFound ∨ e = .NoTemplatesConfigured := by
  unfold get_template get_template_v at h
  split at h
  · exact Or.inr (Except.error.inj h).symm
  · rename_i ts heq
    have h' : (match dictGet? ts name with
        | some params => Except.ok params
        | none => Except.error SmokerError.TemplateNotFound) =
        Except.error e := h
    cases hget : dictGet? ts name with
    | some params => rw [hget] at h'; exact absurd h' (by simp)
    | none => rw [hget] at h'; exact Or.inl (Except.error.inj h').symm

theorem load_plugins_cases (m : PluginManager) :
    (∃ e, (e = SmokerError.BasePluginTemplateNotFound ∨
        e = SmokerError.AttributeError) ∧
      load_plugins m = .error (e, m)) ∨
    (∃ entries, m.conf_plugins = some entries ∧
      (((load_entries m entries m.plugins).length = 0 ∧
        load_plugins m = .error (.NoRunningPlugins,
          { m with plugins := load_entries m entries m.plugins })) ∨
       load_plugins m = .ok
         { m with plugins := load_entries m entries m.plugins })) := by
  unfold load_plugins
  cases hbase : get_template m "BasePlugin" with
  | error e =>
    rcases get_template_error_cases m "BasePlugin" e hbase with he | he <;>
      (subst he; exact Or.inl ⟨_, by simp, rfl⟩)
  | ok t =>
    cases hcp : m.conf_plugins with
    | none => exact Or.inl ⟨_, by simp, rfl⟩
    | some entries =>
      refine Or.inr ⟨entries, rfl, ?_⟩
      by_cases hlen : (load_entries m entries m.plugins).length = 0
      · exact Or.inl ⟨hlen, by simp [hlen]⟩
      · exact Or.inr (by simp [hlen])

theorem add_process_ok_spec (m : PluginManager) (popt : Option (List String))
    (fopt : Option (Dict Value)) (id : Nat) (m' : PluginManager)
    (h : add_process m popt fopt = .ok (id, m')) :
    ∃ pl : List (String × Plugin),
      pl ≠ [] ∧
      id = m.processes.length ∧
      m' = { m with processes := m.processes ++ [some ⟨pl⟩],
                    plugins := pl.foldl (fun acc q => forceSet acc q.1) m.plugins } := by
  unfold add_process at h
  cases hn : namesPhase m popt with
  | error e => rw [hn] at h; exact absurd h (by simp)
  | ok fromNames =>
    rw [hn] at h
    simp only at h
    split at h
    · exact absurd h (by simp)
    · rename_i hlen
      refine ⟨fromNames ++ filterPhase m fopt, ?_, ?_, ?_⟩
      · intro hnil
        exact hlen (by rw [hnil]; rfl)
      · injection h with h'
        have h1 := congrArg Prod.fst h'
        simpa [List.length_append] using h1.symm
      · injection h with h'
        exact (congrArg Prod.snd h').symm

theorem stopLoop_spec (plugins : Dict Plugin) (alive : Nat → String → Bool) :
    ∀ (fuel cnt k : Nat) (logs : List Nat) (slept : ℚ) (k' : Nat)
      (out : List Nat) (slept' : ℚ),
      cnt = prevCnt plugins alive k →
      stopLoop plugins alive fuel cnt k logs slept = some (k', out, slept') →
      k ≤ k' ∧
      (pluginsLeft plugins (alive k')).length = 0 ∧
      (∀ j, k ≤ j → j < k' → (pluginsLeft plugins (alive j)).length ≠ 0) ∧
      slept' = slept + (k' - k : ℕ) * sleepInterval ∧
      (∀ j, j ∈ out → j ∈ logs ∨
        (k ≤ j ∧ j < k' ∧
          (pluginsLeft plugins (alive j)).length ≠ prevCnt plugins alive j)) := by
  intro fuel
  induction fuel with
  | zero =>
    intro cnt k logs slept k' out slept' _ hrun
    exact absurd hrun (by simp [stopLoop])
  | succ fuel ih =>
    intro cnt k logs slept k' out slept' hcnt hrun
    rw [stopLoop] at hrun
    by_cases hL : (pluginsLeft plugins (alive k)).length = 0
    · simp only [hL, if_pos] at hrun
      obtain ⟨hk, hout, hslept⟩ : k = k' ∧ logs.reverse = out ∧ slept = slept' := by
        have := Option.some.inj hrun
        exact ⟨congrArg Prod.fst this,
          congrArg (fun q => q.2.1) this, congrArg (fun q => q.2.2) this⟩
      subst hk
      refine ⟨Nat.le_refl _, hL, ?_, ?_, ?_⟩
      · intro j h1 h2
        exact absurd (Nat.lt_of_le_of_lt h1 h2) (Nat.lt_irrefl _)
      · rw [← hslept]
        simp
      · intro j hj
        rw [← hout] at hj
        exact Or.inl (List.mem_reverse.mp hj)
    · simp only [hL, if_neg, Bool.false_eq_true, not_false_eq_true] at hrun
      have hnext : (pluginsLeft plugins (alive k)).length =
          prevCnt plugins alive (k + 1) := by
        simp [prevCnt]
      obtain ⟨h1, h2, h3, h4, h5⟩ := ih _ _ _ _ _ _ _ hnext hrun
      refine ⟨Nat.le_trans (Nat.le_succ _) h1, h2, ?_, ?_, ?_⟩
      · intro j hkj hjk
        rcases Nat.eq_or_lt_of_le hkj with heq | hlt
        · rw [← heq]; exact hL
        · exact h3 j hlt hjk
      · rw [h4]
        have hsub : (k' - k : ℕ) = (k' - (k + 1)) + 1 := by omega
        rw [hsub]
        push_cast
        ring
      · intro j hj
        rcases h5 j hj with hmem | ⟨hkj, hjk, hne⟩
        · by_cases hchange : (pluginsLeft plugins (alive k)).length ≠ cnt
          · rw [if_pos hchange] at hmem
            rcases List.mem_cons.mp hmem with heq | hmem'
            · subst heq
              refine Or.inr ⟨Nat.le_refl _, Nat.lt_of_lt_of_le (Nat.lt_succ_self _) h1, ?_⟩
              rw [← hcnt]
              exact hchange
            · exact Or.inl hmem'
          · rw [if_neg hchange] at hmem
            exact Or.inl hmem
        · exact Or.inr ⟨Nat.le_trans (Nat.le_succ _) hkj, hjk, hne⟩

end ManagerLemmas

section Claims

open PluginManager

/-- C4: for every configuration in which the templates mapping is absent or
does not contain the key `BasePlugin`, manager construction fails fatally
with the distinct `BasePluginTemplateNotFound` error before any plugin entry
is processed; the error state carries the registry exactly as it was, so zero
plugins are loaded. -/
theorem c4_missing_base_template (sharedPlugins : Dict Plugin)
    (sharedProcesses : List (Option ProcessRec))
    (plugins actions templates : Option (Dict (Dict Value)))
    (h : templates = none ∨
      ∃ ts, templates = some ts ∧ dictGet? ts "BasePlugin" = none) :
    PluginManager.init sharedPlugins sharedProcesses plugins actions templates =
      .error (.BasePluginTemplateNotFound,
        { conf_plugins := plugins, conf_actions := actions,
          conf_templates := templates, plugins := sharedPlugins,
          processes := sharedProcesses, stopping := false }) := by
  rcases h with h | ⟨ts, hts, hbp⟩
  · subst h; rfl
  · subst hts
    unfold PluginManager.init load_plugins
    simp [get_template, get_template_v, hbp]

/-- Witness for C4: a templates mapping without `BasePlugin` (here the empty
mapping) satisfies the hypothesis, and construction from a fresh class state
fails with `BasePluginTemplateNotFound` leaving the registry empty. -/
theorem c4_missing_base_template_witness :
    ((some ([] : Dict (Dict Value)) = none ∨
      ∃ ts, (some ([] : Dict (Dict Value))) = some ts ∧
        dictGet? ts "BasePlugin" = none)) ∧
    PluginManager.init [] [none] (some [("p", [("x", .vint 1)])]) none (some []) =
      .error (.BasePluginTemplateNotFound,
        { conf_plugins := some [("p", [("x", .vint 1)])], conf_actions := none,
          conf_templates := some [], plugins := [],
          processes := [none], stopping := false }) :=
  ⟨Or.inr ⟨[], rfl, rfl⟩,
   c4_missing_base_template [] [none] (some [("p", [("x", .vint 1)])]) none
     (some []) (Or.inr ⟨[], rfl, rfl⟩)⟩

/-- C5: for every registry state, `get_plugins` with a single-key filter
mapping `key` to `value` returns exactly the registered plugins whose
resolved parameters contain `key` with a value Python-equal to `value`, and
`get_plugins` with no filter returns the full name-to-Plugin registry
mapping. -/
theorem c5_get_plugins (m : PluginManager) (key : String) (value : Value) :
    get_plugins m none = .inr m.plugins ∧
    get_plugins m (some [(key, value)]) =
      .inl ((filterEntries m.plugins key value).map (·.2)) ∧
    ∀ p : Plugin,
      p ∈ (filterEntries m.plugins key value).map (·.2) ↔
        ∃ n, (n, p) ∈ m.plugins ∧
          ∃ v, dictGet? p.params key = some v ∧ pyEq v value = true := by
  refine ⟨rfl, rfl, fun p => ?_⟩
  constructor
  · intro hp
    rcases List.mem_map.mp hp with ⟨q, hq, hqp⟩
    rcases List.mem_filter.mp hq with ⟨hql, hpred⟩
    refine ⟨q.1, ?_, ?_⟩
    · rw [← hqp]
      exact hql
    · rw [← hqp]
      unfold matchesFilter at hpred
      cases hget : dictGet? q.2.params key with
      | some v =>
        rw [hget] at hpred
        exact ⟨v, rfl, hpred⟩
      | none =>
        rw [hget] at hpred
        exact absurd hpred (by simp)
  · rintro ⟨n, hmem, v, hget, heq⟩
    refine List.mem_map.mpr ⟨(n, p), ?_, rfl⟩
    refine List.mem_filter.mpr ⟨hmem, ?_⟩
    unfold matchesFilter
    rw [hget]
    exact heq

/-- C9: the in-progress probe count reachable through the shared counting
semaphore of capacity `semaphore_count nprocs = nprocs + 2` never exceeds
that capacity, regardless of how many plugins or forced runs feed the gate
(the acquire/release discipline is modelled from the spec, as the plugin run
loop is outside the embedded module). -/
theorem c9_gate_bound (nprocs n : Nat)
    (h : GateTrace (semaphore_count nprocs) n) : n ≤ semaphore_count nprocs := by
  induction h with
  | nil => exact Nat.zero_le _
  | acquire _ hlt _ => exact hlt
  | release _ ih => exact Nat.le_trans (Nat.le_succ _) ih

/-- Witness for C9: on a 2-processor host the capacity is 4; three probes can
be simultaneously in progress, and the bound 3 ≤ 4 follows from the gate
invariant. -/
theorem c9_gate_bound_witness :
    GateTrace (semaphore_count 2) 3 ∧ 3 ≤ semaphore_count 2 := by
  have tr : GateTrace (semaphore_count 2) 3 :=
    GateTrace.acquire
      (GateTrace.acquire (GateTrace.acquire GateTrace.nil (by decide)) (by decide))
      (by decide)
  exact ⟨tr, c9_gate_bound 2 3 tr⟩

/-- Counterexample to C1 as stated: on the spec's own example (BasePlugin
`a=1, b=2`, template T `b=3, c=4`, options `c=5, d=6` with `Template=T`) the
code resolves a parameter mapping that still contains the `Template` key —
options pass through wholesale, the `Template` selector included — so the
resolved params do not equal exactly the four-key mapping
`a=1, b=3, c=5, d=6` the claim names (which has no `Template` key). -/
theorem c1_counterexample :
    (load_plugin exMergeManager "example" exOptions).map Plugin.params =
      .ok exMergedParams ∧
    dictGet? exMergedParams "Template" = some (.vstr "T") ∧
    dictGet? [("a", Value.vint 1), ("b", Value.vint 3), ("c", Value.vint 5),
      ("d", Value.vint 6)] "Template" = none :=
  ⟨rfl, rfl, rfl⟩

/-- C1 (amended): for every plugin configuration whose options name a custom
template, the resolved parameter mapping is, per key, the plugin's own
options, else the named custom template, else the BasePlugin defaults —
later source wins per key and unrecognized keys (the `Template` selector
included) pass through unchanged.  The `Action` key is the one exception:
when present it is substituted by the named action's parameters before the
merge, so the per-key description applies to every other key, and to all
keys when no `Action` is configured.  In particular, on the example the
resolved params equal exactly `a=1, b=3, c=5, d=6, Template=T`. -/
theorem c1_merge_precedence (m : PluginManager) (name T k : String)
    (options custom : Dict Value) (p : Plugin)
    (hT : dictGet? options "Template" = some (.vstr T))
    (hcustom : get_template m T = .ok custom)
    (hload : load_plugin m name options = .ok p) :
    (k ≠ "Action" →
      dictGet? p.params k =
        firstSome (dictGet? options k)
          (firstSome (dictGet? custom k) (dictGet? (baseTemplate m) k))) ∧
    (dictGet? options "Action" = none →
      dictGet? p.params k =
        firstSome (dictGet? options k)
          (firstSome (dictGet? custom k) (dictGet? (baseTemplate m) k))) := by
  unfold load_plugin at hload
  have htp : templatePhase m (baseTemplate m) options =
      .ok (dictMerge (baseTemplate m) custom) := by
    unfold templatePhase
    rw [hT]
    unfold get_template at hcustom
    simp only [hcustom]
  rw [htp] at hload
  have key_eq : ∀ options' : Dict Value,
      dictGet? options' k = dictGet? options k →
      p.params = dictMerge (dictMerge (baseTemplate m) custom) options' →
      dictGet? p.params k =
        firstSome (dictGet? options k)
          (firstSome (dictGet? custom k) (dictGet? (baseTemplate m) k)) := by
    intro options' hsame hparams
    rw [hparams, dictGet?_dictMerge, dictGet?_dictMerge, hsame]
  cases hact : dictGet? options "Action" with
  | none =>
    have hap : actionPhase m options = .ok options := by
      unfold actionPhase
      rw [hact]
    rw [hap] at hload
    have hp : p = mkPlugin name (dictMerge (dictMerge (baseTemplate m) custom) options) :=
      (Except.ok.inj hload).symm
    have hparams : p.params = dictMerge (dictMerge (baseTemplate m) custom) options := by
      rw [hp]; rfl
    exact ⟨fun _ => key_eq options rfl hparams, fun _ => key_eq options rfl hparams⟩
  | some aname =>
    refine ⟨?_, ?_⟩
    · intro hk
      unfold actionPhase at hload
      rw [hact] at hload
      cases hga : get_action_v m aname with
      | error e =>
        simp only [hga] at hload
        exact absurd hload (by simp)
      | ok ap =>
        simp only [hga] at hload
        have hp : p = mkPlugin name (dictMerge (dictMerge (baseTemplate m) custom)
            (dictSet options "Action" (Value.vdict ap))) :=
          (Except.ok.inj hload).symm
        have hparams : p.params = dictMerge (dictMerge (baseTemplate m) custom)
            (dictSet options "Action" (Value.vdict ap)) := by
          rw [hp]; rfl
        refine key_eq _ ?_ hparams
        rw [dictGet?_dictSet]
        have : ¬ "Action" = k := fun h => hk h.symm
        simp [this]
    · intro hnone
      exact absurd hnone (by simp)

/-- Witness for C1: the spec's merge example instantiates the amended claim;
the resolved value at key `b` comes from the custom template, at key `c` and
`d` from the options, at key `a` from the BasePlugin defaults, and the
`Template` selector passes through. -/
theorem c1_merge_precedence_witness :
    dictGet? exOptions "Template" = some (.vstr "T") ∧
    get_template exMergeManager "T" = .ok [("b", .vint 3), ("c", .vint 4)] ∧
    load_plugin exMergeManager "example" exOptions =
      .ok (mkPlugin "example" exMergedParams) ∧
    dictGet? (mkPlugin "example" exMergedParams).params "b" =
      firstSome (dictGet? exOptions "b")
        (firstSome (dictGet? [("b", Value.vint 3), ("c", Value.vint 4)] "b")
          (dictGet? (baseTemplate exMergeManager) "b")) ∧
    dictGet? (mkPlugin "example" exMergedParams).params "Template" =
      firstSome (dictGet? exOptions "Template")
        (firstSome (dictGet? [("b", Value.vint 3), ("c", Value.vint 4)] "Template")
          (dictGet? (baseTemplate exMergeManager) "Template")) :=
  ⟨rfl, rfl, rfl,
   (c1_merge_precedence exMergeManager "example" "T" "b" exOptions
     [("b", .vint 3), ("c", .vint 4)] (mkPlugin "example" exMergedParams)
     rfl rfl rfl).2 rfl,
   (c1_merge_precedence exMergeManager "example" "T" "Template" exOptions
     [("b", .vint 3), ("c", .vint 4)] (mkPlugin "example" exMergedParams)
     rfl rfl rfl).2 rfl⟩

/-- C8: a configured plugin entry whose options carry `Enabled = false` is
skipped entirely by `load_plugins`: whatever the loading outcome, that name is
absent from the resulting registry (it was not there before, every entry
under that name is disabled, and other entries only register under their own
names). -/
theorem c8_disabled_never_registered (m : PluginManager) (name : String)
    (hdis : ∀ entries options, m.conf_plugins = some entries →
      (name, options) ∈ entries →
      dictGet? options "Enabled" = some (.vbool false))
    (hnew : dictGet? m.plugins name = none) :
    (∀ m', load_plugins m = .ok m' → dictGet? m'.plugins name = none) ∧
    (∀ e m', load_plugins m = .error (e, m') →
      dictGet? m'.plugins name = none) := by
  have hd : ∀ entries, m.conf_plugins = some entries →
      dictGet? (load_entries m entries m.plugins) name = none := by
    intro entries he
    rw [load_entries_get_of_disabled m entries m.plugins name ?_]
    · exact hnew
    · intro o ho
      have hE := hdis entries o he ho
      unfold disabledEntry
      rw [hE]
      rfl
  rcases load_plugins_cases m with ⟨e, _, herr⟩ | ⟨entries, hent, hcase⟩
  · constructor
    · intro m' hok
      rw [herr] at hok
      exact absurd hok (by simp)
    · intro e' m' herr'
      rw [herr] at herr'
      have hpair := Except.error.inj herr'
      have hm : m' = m := (congrArg Prod.snd hpair).symm
      rw [hm]
      exact hnew
  · rcases hcase with ⟨_, hc⟩ | hc
    · constructor
      · intro m' hok
        rw [hc] at hok
        exact absurd hok (by simp)
      · intro e' m' herr'
        rw [hc] at herr'
        have hpair := Except.error.inj herr'
        have hm : m' = { m with plugins := load_entries m entries m.plugins } :=
          (congrArg Prod.snd hpair).symm
        rw [hm]
        exact hd entries hent
    · constructor
      · intro m' hok
        rw [hc] at hok
        have hm := Except.ok.inj hok
        rw [← hm]
        exact hd entries hent
      · intro e' m' herr'
        rw [hc] at herr'
        exact absurd herr' (by simp)

/-- Witness for C8: loading `exDisabledConf` (entry `off` disabled, entry
`on` enabled) succeeds, and `off` is absent from the resulting registry. -/
theorem c8_disabled_never_registered_witness :
    load_plugins exDisabledManager = .ok exDisabledResult ∧
    dictGet? exDisabledResult.plugins "off" = none :=
  ⟨rfl,
   (c8_disabled_never_registered exDisabledManager "off"
     (by
       intro entries options he hmem
       have he' : entries = exDisabledConf := Option.some.inj he.symm
       subst he'
       rcases List.mem_cons.mp hmem with h1 | h2
       · rw [(Prod.mk.inj h1).2]
         rfl
       · rcases List.mem_cons.mp h2 with h3 | h4
         · exact absurd (Prod.mk.inj h3).1 (by decide)
         · cases h4)
     rfl).1 exDisabledResult rfl⟩

/-- Counterexample to C2 as stated: resolving an unknown plugin name in
`add_process` raises `NoSuchPlugin` (propagated from `get_plugin`), not the
claimed `NoPluginsFound`. -/
theorem c2_counterexample :
    add_process exManager (some ["ghost"]) none =
      .error (.NoSuchPlugin, exManager) ∧
    SmokerError.NoSuchPlugin ≠ SmokerError.NoPluginsFound :=
  ⟨rfl, by decide⟩

/-- C2 (amended): when `add_process` resolves no plugin it fails and leaves
the ledger and every plugin untouched (the returned state is exactly the
input state), but the error depends on the cause: an unknown explicit name
fails with `NoSuchPlugin`; an empty or omitted name list combined with an
omitted, empty or non-matching filter fails with `NoPluginsFound`. -/
theorem c2_empty_resolution (m : PluginManager) (popt : Option (List String))
    (fopt : Option (Dict Value)) :
    (∀ names, popt = some names →
      (∃ n ∈ names, dictGet? m.plugins n = none) →
      add_process m popt fopt = .error (.NoSuchPlugin, m)) ∧
    ((popt = none ∨ popt = some []) →
      (fopt = none ∨ fopt = some [] ∨
        ∃ key value rest, fopt = some ((key, value) :: rest) ∧
          filterEntries m.plugins key value = []) →
      add_process m popt fopt = .error (.NoPluginsFound, m)) := by
  constructor
  · intro names hpopt hunknown
    subst hpopt
    have hne : names.isEmpty = false := by
      rcases hunknown with ⟨n, hn, _⟩
      cases names with
      | nil => cases hn
      | cons a rest => rfl
    have hnp : namesPhase m (some names) = .error .NoSuchPlugin := by
      have hdef : namesPhase m (some names) =
          if names.isEmpty = true then Except.ok [] else resolveNames m names := rfl
      rw [hdef, hne]
      simp only [Bool.false_eq_true, if_false]
      exact resolveNames_error_of_unknown m names hunknown
    unfold add_process
    rw [hnp]
  · intro hpopt hfopt
    have hnames : namesPhase m popt = .ok [] := by
      rcases hpopt with h | h <;> subst h <;> rfl
    have hfilter : filterPhase m fopt = [] := by
      rcases hfopt with h | h | ⟨key, value, rest, hf, hempty⟩
      · subst h; rfl
      · subst h; rfl
      · subst hf
        unfold filterPhase
        exact hempty
    unfold add_process
    rw [hnames, hfilter]
    rfl

/-- Witness for C2: on a registry holding `pa` and `pb`, the unknown name
`ghost` fails with `NoSuchPlugin`, and a filter matching no plugin fails with
`NoPluginsFound`; both leave the manager state unchanged. -/
theorem c2_empty_resolution_witness :
    (∃ n ∈ ["ghost"], dictGet? exManager.plugins n = none) ∧
    add_process exManager (some ["ghost"]) none =
      .error (.NoSuchPlugin, exManager) ∧
    filterEntries exManager.plugins "Category" (.vstr "none") = [] ∧
    add_process exManager none (some [("Category", .vstr "none")]) =
      .error (.NoPluginsFound, exManager) :=
  ⟨⟨"ghost", by simp, rfl⟩,
   (c2_empty_resolution exManager (some ["ghost"]) none).1 ["ghost"] rfl
     ⟨"ghost", by simp, rfl⟩,
   rfl,
   (c2_empty_resolution exManager none
       (some [("Category", .vstr "none")])).2 (Or.inl rfl)
     (Or.inr (Or.inr ⟨"Category", .vstr "none", [], rfl, rfl⟩))⟩

/-- C3: every successful `add_process` returns as handle the current ledger
length — so, from a freshly constructed manager whose ledger is the single
`None` sentinel, successive successful calls return the strictly increasing
consecutive handles 1, 2, 3, … — the handle is the appended record's 1-based
ledger position, `get_process 0` returns the `None` sentinel rather than a
ProcessRecord, and `get_process` on any handle beyond the assigned range
fails with `IndexError`. -/
theorem c3_handles (m : PluginManager) (popt : Option (List String))
    (fopt : Option (Dict Value)) (id : Nat) (m' : PluginManager)
    (hsent : m.processes.head? = some none)
    (hadd : add_process m popt fopt = .ok (id, m')) :
    id = m.processes.length ∧ 1 ≤ id ∧
    m'.processes.length = id + 1 ∧
    (∃ r : ProcessRec, get_process m' id = .ok (some r)) ∧
    get_process m' 0 = .ok none ∧
    (∀ h, id + 1 ≤ h → get_process m' h = .error .IndexError) := by
  obtain ⟨pl, hne, hid, hm⟩ := add_process_ok_spec m popt fopt id m' hadd
  subst hm
  have hpos : 0 < m.processes.length := by
    cases hproc : m.processes with
    | nil => rw [hproc] at hsent; exact absurd hsent (by simp)
    | cons a rest => exact Nat.succ_pos rest.length
  refine ⟨hid, ?_, ?_, ⟨⟨pl⟩, ?_⟩, ?_, ?_⟩
  · rw [hid]; exact hpos
  · simp [hid]
  · unfold get_process
    simp only []
    rw [hid, List.getElem?_concat_length]
  · unfold get_process
    simp only []
    rw [List.getElem?_append_left hpos, ← List.head?_eq_getElem?, hsent]
  · intro h hh
    unfold get_process
    simp only []
    rw [List.getElem?_eq_none_iff.mpr
      (by
        simp only [List.length_append, List.length_cons, List.length_nil]
        omega)]

/-- Witness for C3: on `exManager` (fresh ledger, sentinel at position 0) a
forced run of `pa` gets handle 1 = the ledger length before the call,
`get_process 0` returns the `None` sentinel, and handle 2 is out of range. -/
theorem c3_handles_witness :
    exManager.processes.head? = some none ∧
    add_process exManager (some ["pa"]) none = .ok (1, exAfterAdd) ∧
    1 = exManager.processes.length ∧
    get_process exAfterAdd 0 = .ok none ∧
    get_process exAfterAdd 2 = .error .IndexError :=
  ⟨rfl, rfl,
   (c3_handles exManager (some ["pa"]) none 1 exAfterAdd rfl rfl).1,
   (c3_handles exManager (some ["pa"]) none 1 exAfterAdd rfl rfl).2.2.2.2.1,
   (c3_handles exManager (some ["pa"]) none 1 exAfterAdd rfl rfl).2.2.2.2.2 2
     (by decide)⟩

/-- C6: every successful `add_process` appends one ledger record and, for
every plugin of the resolved set, replaces the registry entry by its
`forcePlugin` image — `force = true`, `forced_result` cleared, all other
fields kept — even if it was already forced; registry entries outside the
resolved set are untouched. -/
theorem c6_force_flags (m : PluginManager) (popt : Option (List String))
    (fopt : Option (Dict Value)) (id : Nat) (m' : PluginManager)
    (hadd : add_process m popt fopt = .ok (id, m')) :
    ∃ rec : ProcessRec,
      m'.processes = m.processes ++ [some rec] ∧
      rec.plugins ≠ [] ∧
      (∀ k, k ∈ rec.plugins.map (·.1) →
        dictGet? m'.plugins k = (dictGet? m.plugins k).map forcePlugin) ∧
      (∀ k p, k ∈ rec.plugins.map (·.1) →
        dictGet? m'.plugins k = some p →
        p.force = true ∧ p.forced_result = none) ∧
      (∀ k, k ∉ rec.plugins.map (·.1) →
        dictGet? m'.plugins k = dictGet? m.plugins k) := by
  obtain ⟨pl, hne, hid, hm⟩ := add_process_ok_spec m popt fopt id m' hadd
  subst hm
  refine ⟨⟨pl⟩, rfl, hne, ?_, ?_, ?_⟩
  · intro k hk
    rw [show ({ m with
        processes := m.processes ++ [some ⟨pl⟩],
        plugins := pl.foldl (fun acc q => forceSet acc q.1) m.plugins } :
          PluginManager).plugins =
        pl.foldl (fun acc q => forceSet acc q.1) m.plugins from rfl]
    rw [dictGet?_foldl_forceSet, if_pos hk]
  · intro k p hk hget
    rw [show ({ m with
        processes := m.processes ++ [some ⟨pl⟩],
        plugins := pl.foldl (fun acc q => forceSet acc q.1) m.plugins } :
          PluginManager).plugins =
        pl.foldl (fun acc q => forceSet acc q.1) m.plugins from rfl] at hget
    rw [dictGet?_foldl_forceSet, if_pos hk] at hget
    cases hq : dictGet? m.plugins k with
    | none => rw [hq] at hget; exact absurd hget (by simp)
    | some q =>
      rw [hq] at hget
      have hp : p = forcePlugin q := (Option.some.inj hget).symm
      rw [hp]
      exact ⟨rfl, rfl⟩
  · intro k hk
    rw [show ({ m with
        processes := m.processes ++ [some ⟨pl⟩],
        plugins := pl.foldl (fun acc q => forceSet acc q.1) m.plugins } :
          PluginManager).plugins =
        pl.foldl (fun acc q => forceSet acc q.1) m.plugins from rfl]
    rw [dictGet?_foldl_forceSet, if_neg hk]

/-- Witness for C6: forcing `pb`, which is already forced and still holds a
stale forced result, re-sets its flag and clears the result, while `pa` is
untouched. -/
theorem c6_force_flags_witness :
    exPluginB.force = true ∧
    add_process exManager (some ["pb"]) none = .ok (1, exAfterAddB) ∧
    dictGet? exAfterAddB.plugins "pb" = some (forcePlugin exPluginB) ∧
    (forcePlugin exPluginB).force = true ∧
    (forcePlugin exPluginB).forced_result = none ∧
    dictGet? exAfterAddB.plugins "pa" = dictGet? exManager.plugins "pa" := by
  obtain ⟨rec, hproc, _, hforce, _, hout⟩ :=
    c6_force_flags exManager (some ["pb"]) none 1 exAfterAddB rfl
  have hrec : rec = ⟨[("pb", exPluginB)]⟩ := by
    have h2 : ([none, some (⟨[("pb", exPluginB)]⟩ : ProcessRec)] :
        List (Option ProcessRec)) = [none, some rec] := hproc
    injection h2 with ha hb
    injection hb with hc hd
    exact (Option.some.inj hc).symm
  subst hrec
  refine ⟨rfl, rfl, ?_, rfl, rfl, ?_⟩
  · exact (hforce "pb" (by simp)).trans rfl
  · exact hout "pa" (by simp)

/-- C10: the registry and the ledger are class-level state never reassigned
by the constructor, so a second manager built over the first one's shared
state keeps the first ledger verbatim, keeps every previously registered
plugin name, hands out its next `add_process` handle where the previous
manager stopped (the shared ledger length) rather than restarting at 1, and
can never fail with the fatal no-plugins error while plugins from the
earlier instance remain registered. -/
theorem c10_shared_class_state (m1 : PluginManager)
    (plugins actions templates : Option (Dict (Dict Value))) :
    (∀ m2, PluginManager.init m1.plugins m1.processes plugins actions
        templates = .ok m2 →
      m2.processes = m1.processes ∧
      (∀ k, dictHasKey m1.plugins k = true → dictHasKey m2.plugins k = true) ∧
      (∀ popt fopt id m3, add_process m2 popt fopt = .ok (id, m3) →
        id = m1.processes.length)) ∧
    (m1.plugins ≠ [] →
      ∀ e m', PluginManager.init m1.plugins m1.processes plugins actions
          templates = .error (e, m') → e ≠ .NoRunningPlugins) := by
  set m0 : PluginManager :=
    { conf_plugins := plugins,
      conf_actions := actions,
      conf_templates := templates,
      plugins := m1.plugins,
      processes := m1.processes,
      stopping := false } with hm0
  have hinit : PluginManager.init m1.plugins m1.processes plugins actions
      templates = load_plugins m0 := rfl
  constructor
  · intro m2 hok
    rw [hinit] at hok
    rcases load_plugins_cases m0 with ⟨e, _, herr⟩ | ⟨entries, hent, hcase⟩
    · rw [herr] at hok
      exact absurd hok (by simp)
    · rcases hcase with ⟨_, hc⟩ | hc
      · rw [hc] at hok
        exact absurd hok (by simp)
      · rw [hc] at hok
        have hm2 := Except.ok.inj hok
        refine ⟨?_, ?_, ?_⟩
        · rw [← hm2]
        · intro k hk
          rw [← hm2]
          exact dictHasKey_load_entries m0 entries m0.plugins k hk
        · intro popt fopt id m3 hadd3
          obtain ⟨pl, _, hid3, _⟩ := add_process_ok_spec m2 popt fopt id m3 hadd3
          rw [hid3, ← hm2]
  · intro hne e m' herr
    rw [hinit] at herr
    rcases load_plugins_cases m0 with ⟨e0, he0, herr0⟩ | ⟨entries, hent, hcase⟩
    · rw [herr0] at herr
      have heq : e0 = e := congrArg Prod.fst (Except.error.inj herr)
      subst heq
      rcases he0 with h | h <;> (subst h; decide)
    · rcases hcase with ⟨hlen0, hc⟩ | hc
      · exfalso
        have hge := load_entries_length_ge m0 entries m0.plugins
        have hz : m1.plugins.length = 0 := Nat.le_zero.mp (hlen0 ▸ hge)
        exact hne (List.length_eq_zero.mp hz)
      · rw [hc] at herr
        exact absurd herr (by simp)

/-- Witness for C10: a second constructor run over `exManager`'s shared class
state keeps its ledger and plugins `pa`, `pb`, registers the new `on` plugin
alongside them, hands out handle 1 = the shared ledger length, and a failing
second run (templates missing) fails with `BasePluginTemplateNotFound`, not
`NoRunningPlugins`. -/
theorem c10_shared_class_state_witness :
    PluginManager.init exManager.plugins exManager.processes
        (some [("on", [("c", .vint 5)])]) none (some exTemplates) =
      .ok exSecondResult ∧
    exSecondResult.processes = exManager.processes ∧
    dictHasKey exManager.plugins "pa" = true ∧
    dictHasKey exSecondResult.plugins "pa" = true ∧
    add_process exSecondResult (some ["pa"]) none = .ok (1, exSecondAdd) ∧
    (1 : Nat) = exManager.processes.length ∧
    exManager.plugins ≠ [] ∧
    PluginManager.init exManager.plugins exManager.processes (some []) none
        none =
      .error (.BasePluginTemplateNotFound,
        { conf_plugins := some [], conf_actions := none, conf_templates := none,
          plugins := exManager.plugins, processes := exManager.processes,
          stopping := false }) ∧
    SmokerError.BasePluginTemplateNotFound ≠ SmokerError.NoRunningPlugins := by
  refine ⟨rfl, ?_, rfl, ?_, rfl, ?_, List.cons_ne_nil _ _, rfl, ?_⟩
  · exact ((c10_shared_class_state exManager (some [("on", [("c", .vint 5)])])
      none (some exTemplates)).1 exSecondResult rfl).1
  · exact ((c10_shared_class_state exManager (some [("on", [("c", .vint 5)])])
      none (some exTemplates)).1 exSecondResult rfl).2.1 "pa" rfl
  · exact ((c10_shared_class_state exManager (some [("on", [("c", .vint 5)])])
      none (some exTemplates)).1 exSecondResult rfl).2.2 (some ["pa"]) none 1
      exSecondAdd rfl
  · exact (c10_shared_class_state exManager (some []) none none).2
      (List.cons_ne_nil _ _) .BasePluginTemplateNotFound _ rfl

/-- C7: `stop` always sets the manager-wide `stopping` flag and requests
termination of every registered plugin; with `blocking = false` it then
returns immediately (zero sleeps, nothing logged) whatever the liveness
oracle says, while with `blocking = true` it returns only once a poll
observes every plugin not-alive, having slept the fixed 0.5 interval once
per preceding poll (each of which saw at least one alive plugin), and having
logged a progress line only at polls whose alive count differed from the
previous poll's count. -/
theorem c7_stop (m : PluginManager) (alive : Nat → String → Bool)
    (fuel : Nat) :
    (stopRequest m).stopping = true ∧
    (∀ k p, dictGet? (stopRequest m).plugins k = some p →
      p.terminated = true) ∧
    stop m false alive fuel = some ⟨stopRequest m, 0, [], 0⟩ ∧
    (∀ res, stop m true alive fuel = some res →
      res.manager = stopRequest m ∧
      (pluginsLeft (stopRequest m).plugins (alive res.sleeps)).length = 0 ∧
      (∀ j, j < res.sleeps →
        (pluginsLeft (stopRequest m).plugins (alive j)).length ≠ 0) ∧
      res.slept = res.sleeps * sleepInterval ∧
      (∀ j, j ∈ res.logPolls → j < res.sleeps ∧
        (pluginsLeft (stopRequest m).plugins (alive j)).length ≠
          prevCnt (stopRequest m).plugins alive j)) := by
  refine ⟨rfl, ?_, rfl, ?_⟩
  · intro k p hget
    unfold stopRequest at hget
    rw [dictGet?_map_value terminatePlugin] at hget
    cases hq : dictGet? m.plugins k with
    | none => rw [hq] at hget; exact absurd hget (by simp)
    | some q =>
      rw [hq] at hget
      rw [← Option.some.inj hget]
      rfl
  · intro res hres
    unfold stop at hres
    rw [if_pos rfl] at hres
    cases hloop : stopLoop (stopRequest m).plugins alive fuel
        (stopRequest m).plugins.length 0 [] 0 with
    | none => rw [hloop] at hres; exact absurd hres (by simp)
    | some out =>
      rw [hloop] at hres
      obtain ⟨k', logs', slept'⟩ := out
      have hres' : res = ⟨stopRequest m, k', logs', slept'⟩ :=
        (Option.some.inj hres).symm
      subst hres'
      obtain ⟨_, h2, h3, h4, h5⟩ :=
        stopLoop_spec (stopRequest m).plugins alive fuel
          (stopRequest m).plugins.length 0 [] 0 k' logs' slept'
          (by simp [prevCnt]) hloop
      refine ⟨rfl, h2, ?_, ?_, ?_⟩
      · intro j hj
        exact h3 j (Nat.zero_le _) hj
      · rw [h4]
        simp
      · intro j hj
        rcases h5 j hj with hmem | ⟨_, hjk, hneq⟩
        · cases hmem
        · exact ⟨hjk, hneq⟩

/-- Witness for C7: with two plugins alive at poll 0 and dead from poll 1,
non-blocking stop returns with zero sleeps, blocking stop returns after one
0.5 sleep, at whose poll both plugins are dead, while poll 0 still saw two
alive and logged nothing (the count had not changed from the initial 2). -/
theorem c7_stop_witness :
    stop exManager false exAlive 0 = some ⟨stopRequest exManager, 0, [], 0⟩ ∧
    stop exManager true exAlive 3 =
      some ⟨stopRequest exManager, 1, [], 0 + sleepInterval⟩ ∧
    (pluginsLeft (stopRequest exManager).plugins (exAlive 1)).length = 0 ∧
    (pluginsLeft (stopRequest exManager).plugins (exAlive 0)).length ≠ 0 ∧
    (0 : ℚ) + sleepInterval = (1 : Nat) * sleepInterval := by
  refine ⟨(c7_stop exManager exAlive 0).2.2.1, rfl, ?_, ?_, ?_⟩
  · exact ((c7_stop exManager exAlive 3).2.2.2
      ⟨stopRequest exManager, 1, [], 0 + sleepInterval⟩ rfl).2.1
  · exact ((c7_stop exManager exAlive 3).2.2.2
      ⟨stopRequest exManager, 1, [], 0 + sleepInterval⟩ rfl).2.2.1 0
      (by decide)
  · exact ((c7_stop exManager exAlive 3).2.2.2
      ⟨stopRequest exManager, 1, [], 0 + sleepInterval⟩ rfl).2.2.2.1

end Claims

end Smoker
